import Mathlib

/-!
A shallow embedding of the core of the rclcpp client library, together with
proofs about it.

The embedding covers:

* the process-wide shutdown utilities of src/rclcpp/src/rclcpp/utilities.cpp
  (signal handler, init, ok, shutdown, sleep_for), modelled as explicit state
  passing over a record of the file-scope globals;
* the entity create operations of src/rclcpp/include/rclcpp/node_impl.hpp
  (create_publisher, create_subscription, create_service, create_client),
  modelled as functions from a node state and a middleware oracle to a result
  carrying the outcome, the new node state, and the list of middleware create
  calls that were issued;
* the three intra-process lambdas installed by node_impl.hpp (the publish
  store-hook, the take hook and the publisher-identity check), modelled as
  functions whose weak manager reference is an Option.

Machine integers that matter (signal numbers, durations) are Int; raw pointers
are Option Nat with none standing for a null pointer; C++ exceptions are the
error side of Except String.
-/

namespace Rclcpp

/-! ## Message types and middleware calls -/

/-- A message type support handle.  The only type the embedding needs to
distinguish is the intra-process notice type
(rcl_interfaces::msg::IntraProcessMessage, the node member ipm_ts_); every
user message type is represented by its type name. -/
inductive MsgType where
  | user (name : String)
  | intraProcessMessage
deriving DecidableEq, Repr

/-- A record of one middleware create call issued by a node create operation
(rmw_create_publisher, rmw_create_subscription, rmw_create_service,
rmw_create_client), with the arguments the source passes. -/
inductive MwCall where
  | createPub (topic : String) (ts : MsgType)
  | createSub (topic : String) (ts : MsgType) (ignoreLocal : Bool)
  | createSrv (serviceName : String)
  | createCli (serviceName : String)
deriving DecidableEq, Repr

/-- The middleware as an oracle: each create primitive either returns an
opaque handle (some) or fails (none, the C++ null return).  errorString
models rmw_get_error_string_safe. -/
structure Middleware where
  createPublisher : String → MsgType → Option Nat
  createSubscription : String → MsgType → Bool → Option Nat
  createService : String → Option Nat
  createClient : String → Option Nat
  errorString : String

/-! ## Callback groups and nodes (callback_group.hpp, node_impl.hpp) -/

/-- CallbackGroupType from callback_group.hpp. -/
inductive CallbackGroupType where
  | mutuallyExclusive
  | reentrant
deriving DecidableEq, Repr

/-- A callback group: its identity (modelling shared-pointer identity), its
type, and the four vectors of member entities that callback_group.hpp
declares (subscription_ptrs_, timer_ptrs_, service_ptrs_, client_ptrs_),
each as a list of entity ids.  There is no vector of publishers. -/
structure CallbackGroup where
  groupId : Nat
  type : CallbackGroupType
  subscriptions : List Nat
  timers : List Nat
  services : List Nat
  clients : List Nat
deriving DecidableEq, Repr

/-- The entity kinds a callback group can hold, matching the four add_
members of CallbackGroup. -/
inductive EntityKind where
  | subscriptionKind
  | timerKind
  | serviceKind
  | clientKind
deriving DecidableEq, Repr

/-- CallbackGroup::add_subscription / add_timer / add_service / add_client:
append the entity id to the vector of the matching kind. -/
def CallbackGroup.addEntity (g : CallbackGroup) (k : EntityKind) (eid : Nat) :
    CallbackGroup :=
  match k with
  | .subscriptionKind => { g with subscriptions := g.subscriptions ++ [eid] }
  | .timerKind => { g with timers := g.timers ++ [eid] }
  | .serviceKind => { g with services := g.services ++ [eid] }
  | .clientKind => { g with clients := g.clients ++ [eid] }

/-- The group holds the entity with this id, in any of its four vectors. -/
def CallbackGroup.holdsEntity (g : CallbackGroup) (eid : Nat) : Prop :=
  eid ∈ g.subscriptions ∨ eid ∈ g.timers ∨ eid ∈ g.services ∨ eid ∈ g.clients

instance (g : CallbackGroup) (eid : Nat) : Decidable (g.holdsEntity eid) := by
  unfold CallbackGroup.holdsEntity; infer_instance

/-- The node state that the create operations of node_impl.hpp read and
write: the use_intra_process_comms_ flag, the registered callback groups,
the identity of default_callback_group_, a counter supplying entity
identities (modelling object identity of the created shared pointers), the
intra-process manager id counter, and the number_of_* counters. -/
structure Node where
  useIntraProcessComms : Bool
  groups : List CallbackGroup
  defaultGroupId : Nat
  nextEntityId : Nat
  ipmNextId : Nat
  numberOfSubscriptions : Nat
  numberOfServices : Nat
  numberOfClients : Nat
deriving DecidableEq, Repr

/-- Node::group_in_node: whether the supplied group is among the groups
registered with this node (shared-pointer comparison, modelled by group
identity). -/
def Node.group_in_node (n : Node) (gid : Nat) : Bool :=
  n.groups.any (fun g => g.groupId == gid)

/-- Attach an entity to the group with the given identity among the node
registered groups (the group object is mutated in place in the C++). -/
def Node.attachEntity (n : Node) (gid : Nat) (k : EntityKind) (eid : Nat) :
    Node :=
  { n with groups :=
      n.groups.map (fun g => if g.groupId = gid then g.addEntity k eid else g) }

/-- The groups of the node that hold the given entity id. -/
def Node.groupsHolding (n : Node) (eid : Nat) : List CallbackGroup :=
  n.groups.filter (fun g => decide (g.holdsEntity eid))

/-! ## Utilities: the process-wide shutdown station (utilities.cpp) -/

/-- The SIGINT signal number. -/
def SIGINT : Int := 2

/-- The file-scope globals of utilities.cpp: g_signal_status,
g_sigint_guard_cond_handle (whether it has been triggered),
g_is_interrupted, and whether g_interrupt_condition_variable has been
notified. -/
structure UtilState where
  signalStatus : Int
  guardTriggered : Bool
  isInterrupted : Bool
  cvNotified : Bool
deriving DecidableEq, Repr

namespace utilities

/-- The installed SIGINT handler `signal_handler`: chains to the previous
handler (external, not modelled), stores the signal value into
g_signal_status, triggers the sigint guard condition, stores true into
g_is_interrupted and notifies the interrupt condition variable. -/
def signal_handler (signalValue : Int) (s : UtilState) : UtilState :=
  { s with
      signalStatus := signalValue
      guardTriggered := true
      isInterrupted := true
      cvNotified := true }

/-- rclcpp::utilities::init: stores false into g_is_interrupted, initializes
the middleware, installs the signal handler and the guard condition
(external effects not modelled).  It does not touch g_signal_status. -/
def init (s : UtilState) : UtilState :=
  { s with isInterrupted := false }

/-- rclcpp::utilities::ok: true while g_signal_status is zero. -/
def ok (s : UtilState) : Bool :=
  s.signalStatus == 0

/-- rclcpp::utilities::shutdown: stores SIGINT into g_signal_status,
triggers the sigint guard condition, stores true into g_is_interrupted and
notifies the interrupt condition variable. -/
def shutdown (s : UtilState) : UtilState :=
  { s with
      signalStatus := SIGINT
      guardTriggered := true
      isInterrupted := true
      cvNotified := true }

/-- One return of the condition-variable wait inside sleep_for: the time
that elapsed during this wait (nanoseconds) and the value of
g_is_interrupted read right after the wait returned. -/
structure WakeEvent where
  elapsed : Int
  interrupted : Bool
deriving DecidableEq, Repr

/-- rclcpp::utilities::sleep_for.  Each element of events is one return of
wait_for; when the list is exhausted the wait consumed the whole remaining
timeout without the flag changing.  Following the source: after a wait the
remaining time is the timeout minus the elapsed time; if it is positive and
g_is_interrupted is false the function recurses on the remaining time;
otherwise it returns the negation of g_is_interrupted. -/
def sleep_for (events : List WakeEvent) (isInterrupted : Bool) (nanos : Int) :
    Bool :=
  match events with
  | [] => !isInterrupted
  | e :: rest =>
    let timeLeft := nanos - e.elapsed
    if 0 < timeLeft ∧ e.interrupted = false then
      sleep_for rest e.interrupted timeLeft
    else
      !e.interrupted

end utilities

/-- The library operations that touch the shutdown station state. -/
inductive UtilOp where
  | initOp
  | shutdownOp
  | sigintOp
deriving DecidableEq, Repr

/-- Apply one library operation to the shutdown station state; the signal
handler is only ever installed for SIGINT. -/
def stepUtil (s : UtilState) (op : UtilOp) : UtilState :=
  match op with
  | .initOp => utilities.init s
  | .shutdownOp => utilities.shutdown s
  | .sigintOp => utilities.signal_handler SIGINT s

/-- Apply a sequence of library operations to the shutdown station state. -/
def applyOps (ops : List UtilOp) (s : UtilState) : UtilState :=
  ops.foldl stepUtil s

/-- The all-zero initial state of the utilities globals. -/
def initialUtilState : UtilState :=
  { signalStatus := 0
    guardTriggered := false
    isInterrupted := false
    cvNotified := false }

/-! ## Entities created by the node (node_impl.hpp) -/

/-- A publisher as create_publisher builds it: the middleware handle, the
topic, and the intra-process id and handle installed by
setup_intra_process when intra-process comms are enabled.  entityId models
the identity of the created shared pointer. -/
structure Publisher where
  entityId : Nat
  handle : Nat
  topic : String
  intraProcessPublisherId : Option Nat
  intraProcessHandle : Option Nat
deriving DecidableEq, Repr

/-- A subscription as create_subscription_internal builds it.  intraSetup
records whether setup_intra_process was called; intraProcessHandle is the
raw pointer value passed to it, with none standing for a null pointer. -/
structure Subscription where
  entityId : Nat
  handle : Nat
  topic : String
  intraSetup : Bool
  intraProcessSubscriptionId : Option Nat
  intraProcessHandle : Option Nat
deriving DecidableEq, Repr

/-- A service as create_service builds it. -/
structure Service where
  entityId : Nat
  handle : Nat
  serviceName : String
deriving DecidableEq, Repr

/-- A client as create_client builds it. -/
structure Client where
  entityId : Nat
  handle : Nat
  serviceName : String
deriving DecidableEq, Repr

/-- The outcome of a create operation: the returned entity or the thrown
error, the node state afterwards (mutations made before a throw persist),
and the middleware create calls that were issued, in order. -/
structure CreateResult (E : Type) where
  res : Except String E
  node : Node
  calls : List MwCall

/-! ## The create operations (node_impl.hpp) -/

/-- Node::create_publisher (node_impl.hpp lines 41-108): create the
middleware publisher handle, throwing if it is null; when
use_intra_process_comms_ is set, additionally create a middleware publisher
on the topic with the "__intra" suffix using the intra-process message type
support ipm_ts_, throwing if that handle is null, register the publisher
with the intra-process manager and install the store hook.  The publisher
is not attached to any callback group. -/
def Node.create_publisher (n : Node) (mw : Middleware) (msgT : MsgType)
    (topicName : String) : CreateResult Publisher :=
  let publisherHandle := mw.createPublisher topicName msgT
  let calls0 := [MwCall.createPub topicName msgT]
  match publisherHandle with
  | none =>
    { res := .error ("could not create publisher: " ++ mw.errorString)
      node := n, calls := calls0 }
  | some h =>
    let pub : Publisher :=
      { entityId := n.nextEntityId, handle := h, topic := topicName
        intraProcessPublisherId := none, intraProcessHandle := none }
    let n1 := { n with nextEntityId := n.nextEntityId + 1 }
    if n.useIntraProcessComms then
      let intraProcessPublisherHandle :=
        mw.createPublisher (topicName ++ "__intra") MsgType.intraProcessMessage
      let calls1 := calls0 ++
        [MwCall.createPub (topicName ++ "__intra") MsgType.intraProcessMessage]
      match intraProcessPublisherHandle with
      | none =>
        { res := .error
            ("could not create intra process publisher: " ++ mw.errorString)
          node := n1, calls := calls1 }
      | some ih =>
        let ipmId := n1.ipmNextId
        let n2 := { n1 with ipmNextId := n1.ipmNextId + 1 }
        { res := .ok { pub with
            intraProcessPublisherId := some ipmId
            intraProcessHandle := some ih }
          node := n2, calls := calls1 }
    else
      { res := .ok pub, node := n1, calls := calls0 }

/-- The tail of Node::create_subscription_internal (lines 237-248): assign
the subscription to a group.  If a group was supplied it must satisfy
group_in_node, else the create throws; without a supplied group the
subscription goes to default_callback_group_.  Then
number_of_subscriptions_ is incremented. -/
def Node.finishSubscriptionCreate (n : Node) (sub : Subscription)
    (group : Option Nat) (calls : List MwCall) : CreateResult Subscription :=
  match group with
  | some gid =>
    if n.group_in_node gid then
      let n2 := n.attachEntity gid .subscriptionKind sub.entityId
      { res := .ok sub
        node := { n2 with numberOfSubscriptions := n2.numberOfSubscriptions + 1 }
        calls := calls }
    else
      { res := .error "Cannot create subscription, group not in node."
        node := n, calls := calls }
  | none =>
    let n2 := n.attachEntity n.defaultGroupId .subscriptionKind sub.entityId
    { res := .ok sub
      node := { n2 with numberOfSubscriptions := n2.numberOfSubscriptions + 1 }
      calls := calls }

/-- Node::create_subscription_internal (node_impl.hpp lines 158-250): create
the middleware subscription handle, throwing if it is null; when
use_intra_process_comms_ is set, create a middleware subscription on the
topic with the "__intra" suffix using ipm_ts_ (with
ignore_local_publications false) — the source then tests subscriber_handle,
not intra_process_subscriber_handle, so a null intra-process handle is NOT
detected and setup_intra_process proceeds with it — then register with the
intra-process manager and install the take hook; finally assign the
subscription to its group. -/
def Node.create_subscription (n : Node) (mw : Middleware) (msgT : MsgType)
    (topicName : String) (group : Option Nat)
    (ignoreLocalPublications : Bool) : CreateResult Subscription :=
  let subscriberHandle := mw.createSubscription topicName msgT
    ignoreLocalPublications
  let calls0 := [MwCall.createSub topicName msgT ignoreLocalPublications]
  match subscriberHandle with
  | none =>
    { res := .error ("could not create subscription: " ++ mw.errorString)
      node := n, calls := calls0 }
  | some h =>
    let sub : Subscription :=
      { entityId := n.nextEntityId, handle := h, topic := topicName
        intraSetup := false, intraProcessSubscriptionId := none
        intraProcessHandle := none }
    let n1 := { n with nextEntityId := n.nextEntityId + 1 }
    if n.useIntraProcessComms then
      let intraProcessSubscriberHandle := mw.createSubscription
        (topicName ++ "__intra") MsgType.intraProcessMessage false
      let calls1 := calls0 ++
        [MwCall.createSub (topicName ++ "__intra") MsgType.intraProcessMessage
          false]
      -- Faithful to the source: the null test here reads subscriber_handle.
      if subscriberHandle.isNone then
        { res := .error
            ("could not create intra process subscription: " ++ mw.errorString)
          node := n1, calls := calls1 }
      else
        let ipmId := n1.ipmNextId
        let n2 := { n1 with ipmNextId := n1.ipmNextId + 1 }
        let sub1 := { sub with
          intraSetup := true
          intraProcessSubscriptionId := some ipmId
          intraProcessHandle := intraProcessSubscriberHandle }
        n2.finishSubscriptionCreate sub1 group calls1
    else
      n1.finishSubscriptionCreate sub group calls0

/-- Node::create_service (node_impl.hpp lines 297-330): create the
middleware service handle, throwing if it is null; construct the service;
assign it to the supplied group if that group satisfies group_in_node
(throwing otherwise), else to default_callback_group_; increment
number_of_services_. -/
def Node.finishServiceCreate (n : Node) (srv : Service)
    (group : Option Nat) (calls : List MwCall) : CreateResult Service :=
  match group with
  | some gid =>
    if n.group_in_node gid then
      let n2 := n.attachEntity gid .serviceKind srv.entityId
      { res := .ok srv
        node := { n2 with numberOfServices := n2.numberOfServices + 1 }
        calls := calls }
    else
      { res := .error "Cannot create service, group not in node."
        node := n, calls := calls }
  | none =>
    let n2 := n.attachEntity n.defaultGroupId .serviceKind srv.entityId
    { res := .ok srv
      node := { n2 with numberOfServices := n2.numberOfServices + 1 }
      calls := calls }

def Node.create_service (n : Node) (mw : Middleware) (serviceName : String)
    (group : Option Nat) : CreateResult Service :=
  let calls0 := [MwCall.createSrv serviceName]
  match mw.createService serviceName with
  | none =>
    { res := .error ("could not create service: " ++ mw.errorString)
      node := n, calls := calls0 }
  | some h =>
    let srv : Service :=
      { entityId := n.nextEntityId, handle := h, serviceName := serviceName }
    let n1 := { n with nextEntityId := n.nextEntityId + 1 }
    n1.finishServiceCreate srv group calls0

/-- Node::create_client (node_impl.hpp lines 253-295): create the middleware
client handle, throwing if it is null; construct the client; assign it to
the supplied group if that group satisfies group_in_node (throwing
otherwise), else to default_callback_group_; increment number_of_clients_. -/
def Node.finishClientCreate (n : Node) (cli : Client)
    (group : Option Nat) (calls : List MwCall) : CreateResult Client :=
  match group with
  | some gid =>
    if n.group_in_node gid then
      let n2 := n.attachEntity gid .clientKind cli.entityId
      { res := .ok cli
        node := { n2 with numberOfClients := n2.numberOfClients + 1 }
        calls := calls }
    else
      { res := .error "Cannot create client, group not in node."
        node := n, calls := calls }
  | none =>
    let n2 := n.attachEntity n.defaultGroupId .clientKind cli.entityId
    { res := .ok cli
      node := { n2 with numberOfClients := n2.numberOfClients + 1 }
      calls := calls }

def Node.create_client (n : Node) (mw : Middleware) (serviceName : String)
    (group : Option Nat) : CreateResult Client :=
  let calls0 := [MwCall.createCli serviceName]
  match mw.createClient serviceName with
  | none =>
    { res := .error ("could not create client: " ++ mw.errorString)
      node := n, calls := calls0 }
  | some h =>
    let cli : Client :=
      { entityId := n.nextEntityId, handle := h, serviceName := serviceName }
    let n1 := { n with nextEntityId := n.nextEntityId + 1 }
    n1.finishClientCreate cli group calls0

/-! ## The intra-process manager and the hooks installed by node_impl.hpp -/

/-- The per-process intra-process manager state, as far as the hooks of
node_impl.hpp need it: the next message sequence number, the stored
messages as (publisher id, sequence, message value) triples, and the
middleware identities of the registered publishers. -/
structure IntraProcessManager where
  nextSeq : Nat
  stored : List (Nat × Nat × Nat)
  publisherGids : List Nat
deriving DecidableEq, Repr

/-- Modelled from the spec: IntraProcessManager::store_intra_process_message
(the manager implementation file is not among the sources) assigns a
monotonically increasing sequence number and pushes the owned message into
the publisher ring; it returns the sequence. -/
def IntraProcessManager.store_intra_process_message
    (ipm : IntraProcessManager) (publisherId : Nat) (msg : Nat) :
    IntraProcessManager × Nat :=
  ({ ipm with
      nextSeq := ipm.nextSeq + 1
      stored := ipm.stored ++ [(publisherId, ipm.nextSeq, msg)] },
   ipm.nextSeq)

/-- Modelled from the spec: IntraProcessManager::take_intra_process_message
(implementation file not among the sources) looks the message up by
publisher id and sequence, returning none if it was already taken or
evicted. -/
def IntraProcessManager.take_intra_process_message
    (ipm : IntraProcessManager) (publisherId messageSequence _subscriptionId : Nat) :
    Option Nat :=
  (ipm.stored.find? (fun t => t.1 == publisherId && t.2.1 == messageSequence)).map
    (fun t => t.2.2)

/-- Modelled from the spec: IntraProcessManager::matches_any_publishers
(implementation file not among the sources) reports whether the given
middleware identity belongs to a publisher registered with the manager. -/
def IntraProcessManager.matches_any_publishers
    (ipm : IntraProcessManager) (senderGid : Nat) : Bool :=
  ipm.publisherGids.contains senderGid

/-- The shared_publish_callback lambda that create_publisher installs
(node_impl.hpp lines 79-102).  The weak manager reference is modelled by an
Option (none: the lock failed because the manager was destroyed), the
message pointer by an Option Nat (none: a null pointer), and type_info by
the type name.  In source order: a failed lock throws; a null message
throws; a dynamic type different from the publisher declared message type
MessageT throws an error naming both; otherwise the message is stored and
the sequence returned. -/
def shared_publish_callback (declaredTypeName : String)
    (weakIpm : Option IntraProcessManager) (publisherId : Nat)
    (msg : Option Nat) (typeInfoName : String) :
    Except String (IntraProcessManager × Nat) :=
  match weakIpm with
  | none =>
    .error "intra process publish called after destruction of intra process manager"
  | some ipm =>
    match msg with
    | none => .error "cannot publisher msg which is a null pointer"
    | some m =>
      if typeInfoName ≠ declaredTypeName then
        .error ("published type \x27" ++ typeInfoName ++
          "\x27 is incompatible from the publisher type \x27" ++
          declaredTypeName ++ "\x27")
      else
        .ok (ipm.store_intra_process_message publisherId m)

/-- The take lambda that create_subscription_internal passes to
setup_intra_process (node_impl.hpp lines 212-226): a failed lock on the
weak manager reference throws; otherwise the message is taken from the
manager. -/
def subscription_take_callback (weakIpm : Option IntraProcessManager)
    (publisherId messageSequence subscriptionId : Nat) :
    Except String (Option Nat) :=
  match weakIpm with
  | none =>
    .error "intra process take called after destruction of intra process manager"
  | some ipm =>
    .ok (ipm.take_intra_process_message publisherId messageSequence
      subscriptionId)

/-- The publisher-identity check lambda that create_subscription_internal
passes to setup_intra_process (node_impl.hpp lines 227-234): a failed lock
on the weak manager reference throws; otherwise matches_any_publishers is
consulted. -/
def subscription_matches_callback (weakIpm : Option IntraProcessManager)
    (senderGid : Nat) : Except String Bool :=
  match weakIpm with
  | none =>
    .error "intra process publisher check called after destruction of intra process manager"
  | some ipm =>
    .ok (ipm.matches_any_publishers senderGid)

/-! ## Concrete fixtures used by the closed theorems -/

/-- A middleware whose create primitives all succeed. -/
def mwAllOk : Middleware :=
  { createPublisher := fun _ _ => some 10
    createSubscription := fun _ _ _ => some 11
    createService := fun _ => some 12
    createClient := fun _ => some 13
    errorString := "middleware error" }

/-- A middleware where only the creates on the plain topic "chatter"
succeed; in particular every create on "chatter__intra" fails (returns a
null handle). -/
def mwIntraFails : Middleware :=
  { createPublisher := fun t _ => if t = "chatter" then some 10 else none
    createSubscription := fun t _ _ => if t = "chatter" then some 11 else none
    createService := fun _ => some 12
    createClient := fun _ => some 13
    errorString := "middleware error" }

/-- An empty mutually exclusive callback group with identity 0, standing for
the default callback group of a fresh node. -/
def defaultGroup0 : CallbackGroup :=
  { groupId := 0, type := .mutuallyExclusive
    subscriptions := [], timers := [], services := [], clients := [] }

/-- A fresh node with intra-process comms enabled, whose only group is the
default group. -/
def nodeIntra : Node :=
  { useIntraProcessComms := true
    groups := [defaultGroup0]
    defaultGroupId := 0
    nextEntityId := 1
    ipmNextId := 0
    numberOfSubscriptions := 0
    numberOfServices := 0
    numberOfClients := 0 }

/-! ## Well-formed nodes -/

/-- Every entity id held by the group is below the bound. -/
def CallbackGroup.idsBelow (g : CallbackGroup) (b : Nat) : Prop :=
  (∀ x ∈ g.subscriptions, x < b) ∧ (∀ x ∈ g.timers, x < b)
  ∧ (∀ x ∈ g.services, x < b) ∧ (∀ x ∈ g.clients, x < b)

instance (g : CallbackGroup) (b : Nat) : Decidable (g.idsBelow b) := by
  unfold CallbackGroup.idsBelow; infer_instance

/-- A well-formed node: its groups have distinct identities, its default
callback group is registered with it, and every entity id held by a group
was allocated before nextEntityId. -/
def Node.WellFormed (n : Node) : Prop :=
  (n.groups.map CallbackGroup.groupId).Nodup
  ∧ n.group_in_node n.defaultGroupId = true
  ∧ ∀ g ∈ n.groups, g.idsBelow n.nextEntityId

instance (n : Node) : Decidable n.WellFormed := by
  unfold Node.WellFormed; infer_instance

/-! ## Helper lemmas -/

theorem CallbackGroup.groupId_addEntity (g : CallbackGroup) (k : EntityKind)
    (eid : Nat) : (g.addEntity k eid).groupId = g.groupId := by
  cases k <;> rfl

theorem CallbackGroup.holdsEntity_addEntity (g : CallbackGroup)
    (k : EntityKind) (eid : Nat) : (g.addEntity k eid).holdsEntity eid := by
  cases k <;> simp [CallbackGroup.addEntity, CallbackGroup.holdsEntity]

theorem CallbackGroup.not_holdsEntity_of_idsBelow (g : CallbackGroup)
    (b eid : Nat) (h : g.idsBelow b) (hle : b ≤ eid) : ¬ g.holdsEntity eid := by
  rintro (hm | hm | hm | hm)
  · exact absurd (h.1 eid hm) (by omega)
  · exact absurd (h.2.1 eid hm) (by omega)
  · exact absurd (h.2.2.1 eid hm) (by omega)
  · exact absurd (h.2.2.2 eid hm) (by omega)

/-- Attaching a fresh entity id to the group with identity gid, in a list of
groups with distinct identities that contains gid, leaves exactly one group
holding that id, and that group has identity gid. -/
theorem filter_holds_attach
    (gs : List CallbackGroup) (gid : Nat) (k : EntityKind) (eid : Nat)
    (hnodup : (gs.map CallbackGroup.groupId).Nodup)
    (hin : gs.any (fun g => g.groupId == gid) = true)
    (hfresh : ∀ g ∈ gs, ¬ g.holdsEntity eid) :
    ∃ gr,
      (gs.map (fun g => if g.groupId = gid then g.addEntity k eid else g)).filter
          (fun g => decide (g.holdsEntity eid)) = [gr]
      ∧ gr.groupId = gid := by
  induction gs with
  | nil => simp at hin
  | cons g rest ih =>
    by_cases hg : g.groupId = gid
    · refine ⟨g.addEntity k eid, ?_, by
        rw [CallbackGroup.groupId_addEntity]; exact hg⟩
      have hhold := CallbackGroup.holdsEntity_addEntity g k eid
      have hrest : ∀ g2 ∈ rest, g2.groupId ≠ gid := by
        intro g2 hg2 hcontra
        have hmem : g.groupId ∈ rest.map CallbackGroup.groupId := by
          rw [hg, ← hcontra]
          exact List.mem_map_of_mem CallbackGroup.groupId hg2
        exact (List.nodup_cons.mp hnodup).1 hmem
      have hnil : (rest.map
          (fun g2 => if g2.groupId = gid then g2.addEntity k eid else g2)).filter
          (fun g2 => decide (g2.holdsEntity eid)) = [] := by
        rw [List.filter_eq_nil_iff]
        intro x hx
        obtain ⟨g2, hg2, hx2⟩ := List.mem_map.mp hx
        rw [if_neg (hrest g2 hg2)] at hx2
        subst hx2
        simp [hfresh g2 (List.mem_cons_of_mem g hg2)]
      simp [if_pos hg, List.filter_cons, hhold, hnil]
    · have hne := hfresh g (List.mem_cons_self g rest)
      have hin2 : rest.any (fun g2 => g2.groupId == gid) = true := by
        simp only [List.any_cons, Bool.or_eq_true, beq_iff_eq] at hin
        rcases hin with h1 | h2
        · exact absurd h1 hg
        · simpa using h2
      obtain ⟨gr, hfil, hgr⟩ := ih (List.nodup_cons.mp hnodup).2 hin2
        (fun g2 h2 => hfresh g2 (List.mem_cons_of_mem g h2))
      refine ⟨gr, ?_, hgr⟩
      simp [if_neg hg, List.filter_cons, hne, hfil]

/-- Node-level version of filter_holds_attach. -/
theorem Node.groupsHolding_attachEntity (n : Node) (gid : Nat)
    (k : EntityKind) (eid : Nat)
    (hnodup : (n.groups.map CallbackGroup.groupId).Nodup)
    (hin : n.group_in_node gid = true)
    (hfresh : ∀ g ∈ n.groups, ¬ g.holdsEntity eid) :
    ∃ gr, (n.attachEntity gid k eid).groupsHolding eid = [gr]
      ∧ gr.groupId = gid :=
  filter_holds_attach n.groups gid k eid hnodup hin hfresh

/-- The group-assignment tail of create_subscription_internal, when it
succeeds, returns the constructed subscription unchanged and leaves it held
by exactly one group: the supplied one, or the default group. -/
theorem Node.finishSubscriptionCreate_attach {n : Node} {sub : Subscription}
    {g? : Option Nat} {calls : List MwCall} {sub2 : Subscription}
    (hok : (n.finishSubscriptionCreate sub g? calls).res = .ok sub2)
    (hnodup : (n.groups.map CallbackGroup.groupId).Nodup)
    (hdef : n.group_in_node n.defaultGroupId = true)
    (hfresh : ∀ g ∈ n.groups, ¬ g.holdsEntity sub.entityId) :
    sub2 = sub
    ∧ ∃ gr,
        (n.finishSubscriptionCreate sub g? calls).node.groupsHolding
          sub.entityId = [gr]
        ∧ gr.groupId = g?.getD n.defaultGroupId := by
  cases g? with
  | none =>
    have hs : sub2 = sub := by
      simp [Node.finishSubscriptionCreate] at hok
      exact hok.symm
    obtain ⟨gr, h1, h2⟩ := Node.groupsHolding_attachEntity n n.defaultGroupId
      .subscriptionKind sub.entityId hnodup hdef hfresh
    exact ⟨hs, gr, h1, h2⟩
  | some gid =>
    cases hg : n.group_in_node gid with
    | false =>
      simp [Node.finishSubscriptionCreate, hg] at hok
    | true =>
      have hs : sub2 = sub := by
        simp [Node.finishSubscriptionCreate, hg] at hok
        exact hok.symm
      obtain ⟨gr, h1, h2⟩ := Node.groupsHolding_attachEntity n gid
        .subscriptionKind sub.entityId hnodup hg hfresh
      refine ⟨hs, gr, ?_, h2⟩
      simpa [Node.finishSubscriptionCreate, hg] using h1

/-- The group-assignment tail of create_service, when it succeeds, returns
the constructed service unchanged and leaves it held by exactly one group:
the supplied one, or the default group. -/
theorem Node.finishServiceCreate_attach {n : Node} {srv : Service}
    {g? : Option Nat} {calls : List MwCall} {srv2 : Service}
    (hok : (n.finishServiceCreate srv g? calls).res = .ok srv2)
    (hnodup : (n.groups.map CallbackGroup.groupId).Nodup)
    (hdef : n.group_in_node n.defaultGroupId = true)
    (hfresh : ∀ g ∈ n.groups, ¬ g.holdsEntity srv.entityId) :
    srv2 = srv
    ∧ ∃ gr,
        (n.finishServiceCreate srv g? calls).node.groupsHolding
          srv.entityId = [gr]
        ∧ gr.groupId = g?.getD n.defaultGroupId := by
  cases g? with
  | none =>
    have hs : srv2 = srv := by
      simp [Node.finishServiceCreate] at hok
      exact hok.symm
    obtain ⟨gr, h1, h2⟩ := Node.groupsHolding_attachEntity n n.defaultGroupId
      .serviceKind srv.entityId hnodup hdef hfresh
    exact ⟨hs, gr, h1, h2⟩
  | some gid =>
    cases hg : n.group_in_node gid with
    | false =>
      simp [Node.finishServiceCreate, hg] at hok
    | true =>
      have hs : srv2 = srv := by
        simp [Node.finishServiceCreate, hg] at hok
        exact hok.symm
      obtain ⟨gr, h1, h2⟩ := Node.groupsHolding_attachEntity n gid
        .serviceKind srv.entityId hnodup hg hfresh
      refine ⟨hs, gr, ?_, h2⟩
      simpa [Node.finishServiceCreate, hg] using h1

/-- The group-assignment tail of create_client, when it succeeds, returns
the constructed client unchanged and leaves it held by exactly one group:
the supplied one, or the default group. -/
theorem Node.finishClientCreate_attach {n : Node} {cli : Client}
    {g? : Option Nat} {calls : List MwCall} {cli2 : Client}
    (hok : (n.finishClientCreate cli g? calls).res = .ok cli2)
    (hnodup : (n.groups.map CallbackGroup.groupId).Nodup)
    (hdef : n.group_in_node n.defaultGroupId = true)
    (hfresh : ∀ g ∈ n.groups, ¬ g.holdsEntity cli.entityId) :
    cli2 = cli
    ∧ ∃ gr,
        (n.finishClientCreate cli g? calls).node.groupsHolding
          cli.entityId = [gr]
        ∧ gr.groupId = g?.getD n.defaultGroupId := by
  cases g? with
  | none =>
    have hs : cli2 = cli := by
      simp [Node.finishClientCreate] at hok
      exact hok.symm
    obtain ⟨gr, h1, h2⟩ := Node.groupsHolding_attachEntity n n.defaultGroupId
      .clientKind cli.entityId hnodup hdef hfresh
    exact ⟨hs, gr, h1, h2⟩
  | some gid =>
    cases hg : n.group_in_node gid with
    | false =>
      simp [Node.finishClientCreate, hg] at hok
    | true =>
      have hs : cli2 = cli := by
        simp [Node.finishClientCreate, hg] at hok
        exact hok.symm
      obtain ⟨gr, h1, h2⟩ := Node.groupsHolding_attachEntity n gid
        .clientKind cli.entityId hnodup hg hfresh
      refine ⟨hs, gr, ?_, h2⟩
      simpa [Node.finishClientCreate, hg] using h1

/-- The group-assignment tail of create_subscription passes the middleware
call log through unchanged. -/
theorem Node.finishSubscriptionCreate_calls (n : Node) (sub : Subscription)
    (g? : Option Nat) (calls : List MwCall) :
    (n.finishSubscriptionCreate sub g? calls).calls = calls := by
  cases g? with
  | none => rfl
  | some gid =>
    cases hg : n.group_in_node gid <;> simp [Node.finishSubscriptionCreate, hg]

/-- A subscription create whose supplied group is not registered with the
node throws and leaves the node groups unchanged. -/
theorem Node.finishSubscriptionCreate_err {n : Node} {sub : Subscription}
    {gid : Nat} {calls : List MwCall} (hg : n.group_in_node gid = false) :
    (n.finishSubscriptionCreate sub (some gid) calls).res.toOption = none
    ∧ (n.finishSubscriptionCreate sub (some gid) calls).node.groups
        = n.groups := by
  simp [Node.finishSubscriptionCreate, hg, Except.toOption]

/-- A service create whose supplied group is not registered with the node
throws and leaves the node groups unchanged. -/
theorem Node.finishServiceCreate_err {n : Node} {srv : Service}
    {gid : Nat} {calls : List MwCall} (hg : n.group_in_node gid = false) :
    (n.finishServiceCreate srv (some gid) calls).res.toOption = none
    ∧ (n.finishServiceCreate srv (some gid) calls).node.groups = n.groups := by
  simp [Node.finishServiceCreate, hg, Except.toOption]

/-- A client create whose supplied group is not registered with the node
throws and leaves the node groups unchanged. -/
theorem Node.finishClientCreate_err {n : Node} {cli : Client}
    {gid : Nat} {calls : List MwCall} (hg : n.group_in_node gid = false) :
    (n.finishClientCreate cli (some gid) calls).res.toOption = none
    ∧ (n.finishClientCreate cli (some gid) calls).node.groups = n.groups := by
  simp [Node.finishClientCreate, hg, Except.toOption]

/-- No library operation on the shutdown station changes a nonzero signal
status back to zero. -/
theorem stepUtil_signalStatus_ne_zero (s : UtilState) (op : UtilOp)
    (h : s.signalStatus ≠ 0) : (stepUtil s op).signalStatus ≠ 0 := by
  cases op with
  | initOp => exact h
  | shutdownOp => simp [stepUtil, utilities.shutdown, SIGINT]
  | sigintOp => simp [stepUtil, utilities.signal_handler, SIGINT]

/-- A nonzero signal status survives any sequence of library operations. -/
theorem applyOps_signalStatus_ne_zero (ops : List UtilOp) (s : UtilState)
    (h : s.signalStatus ≠ 0) : (applyOps ops s).signalStatus ≠ 0 := by
  induction ops generalizing s with
  | nil => exact h
  | cons op ops ih => exact ih (stepUtil s op) (stepUtil_signalStatus_ne_zero s op h)

/-! ## Claims about the create operations -/

/-- C1 (code bug): evaluating create_subscription at a middleware that
creates the "chatter" subscription handle but fails (returns null) for the
intra-process companion "chatter__intra": the create nonetheless succeeds,
with intra-process setup performed on a null intra-process handle, because
the source tests subscriber_handle instead of
intra_process_subscriber_handle after the intra-process create.  By
contrast, create_publisher detects the same middleware failure and fails
with an explanatory error, as the claim demands. -/
theorem C1_intra_subscription_failure_undetected :
    (Option.map (fun sub => (sub.intraSetup, sub.intraProcessHandle))
        (nodeIntra.create_subscription mwIntraFails (MsgType.user "String")
          "chatter" none false).res.toOption) = some (true, none)
    ∧ (nodeIntra.create_publisher mwIntraFails (MsgType.user "String")
        "chatter").res
        = .error "could not create intra process publisher: middleware error" :=
  ⟨by decide, rfl⟩

/-- C2 counterexample: create_publisher takes no callback group and attaches
the publisher to none: at a concrete node, the create succeeds, yet no
group of the node holds the created entity and the node groups are
untouched — refuting the claim for the publisher entity kind. -/
theorem C2_counterexample_publisher_in_no_group :
    (Option.map (fun pub => pub.entityId)
        (nodeIntra.create_publisher mwAllOk (MsgType.user "String")
          "chatter").res.toOption) = some nodeIntra.nextEntityId
    ∧ (nodeIntra.create_publisher mwAllOk (MsgType.user "String")
        "chatter").node.groupsHolding nodeIntra.nextEntityId = []
    ∧ (nodeIntra.create_publisher mwAllOk (MsgType.user "String")
        "chatter").node.groups = nodeIntra.groups :=
  ⟨by decide, by decide, by decide⟩

/-- C2 amended: on a well-formed node, a successful create of a
subscription, service, or client attaches the created entity to the
caller-specified callback group, or to the node default callback group if
none is given, so that afterwards the entity belongs to exactly one group
known to its node; a successful create_publisher attaches the publisher to
no callback group and leaves the node groups unchanged. -/
theorem C2_amended_entity_in_exactly_one_group :
    ∀ (n : Node) (mw : Middleware), n.WellFormed →
      (∀ (msgT : MsgType) (t : String) (g? : Option Nat) (il : Bool)
        (sub : Subscription),
        (n.create_subscription mw msgT t g? il).res = .ok sub →
        ∃ gr, (n.create_subscription mw msgT t g? il).node.groupsHolding
            sub.entityId = [gr]
          ∧ gr.groupId = g?.getD n.defaultGroupId)
      ∧ (∀ (sn : String) (g? : Option Nat) (srv : Service),
        (n.create_service mw sn g?).res = .ok srv →
        ∃ gr, (n.create_service mw sn g?).node.groupsHolding srv.entityId = [gr]
          ∧ gr.groupId = g?.getD n.defaultGroupId)
      ∧ (∀ (sn : String) (g? : Option Nat) (cli : Client),
        (n.create_client mw sn g?).res = .ok cli →
        ∃ gr, (n.create_client mw sn g?).node.groupsHolding cli.entityId = [gr]
          ∧ gr.groupId = g?.getD n.defaultGroupId)
      ∧ (∀ (msgT : MsgType) (t : String) (pub : Publisher),
        (n.create_publisher mw msgT t).res = .ok pub →
        (n.create_publisher mw msgT t).node.groupsHolding pub.entityId = []
          ∧ (n.create_publisher mw msgT t).node.groups = n.groups) := by
  intro n mw hwf
  obtain ⟨hnodup, hdef, hbelow⟩ := hwf
  have hfresh : ∀ g ∈ n.groups, ¬ g.holdsEntity n.nextEntityId :=
    fun g hg => CallbackGroup.not_holdsEntity_of_idsBelow g n.nextEntityId
      n.nextEntityId (hbelow g hg) (Nat.le_refl _)
  refine ⟨?_, ?_, ?_, ?_⟩
  · -- subscriptions
    intro msgT t g? il sub hok
    cases hmw : mw.createSubscription t msgT il with
    | none => simp [Node.create_subscription, hmw] at hok
    | some h =>
      cases huip : n.useIntraProcessComms with
      | false =>
        simp only [Node.create_subscription, hmw, huip, Bool.false_eq_true,
          if_false] at hok ⊢
        obtain ⟨hs, gr, h1, h2⟩ :=
          Node.finishSubscriptionCreate_attach hok hnodup hdef hfresh
        exact ⟨gr, by rw [hs]; exact h1, h2⟩
      | true =>
        simp only [Node.create_subscription, hmw, huip, if_true,
          Option.isNone_some, Bool.false_eq_true, if_false] at hok ⊢
        obtain ⟨hs, gr, h1, h2⟩ :=
          Node.finishSubscriptionCreate_attach hok hnodup hdef hfresh
        exact ⟨gr, by rw [hs]; exact h1, h2⟩
  · -- services
    intro sn g? srv hok
    cases hmw : mw.createService sn with
    | none => simp [Node.create_service, hmw] at hok
    | some h =>
      simp only [Node.create_service, hmw] at hok ⊢
      obtain ⟨hs, gr, h1, h2⟩ :=
        Node.finishServiceCreate_attach hok hnodup hdef hfresh
      exact ⟨gr, by rw [hs]; exact h1, h2⟩
  · -- clients
    intro sn g? cli hok
    cases hmw : mw.createClient sn with
    | none => simp [Node.create_client, hmw] at hok
    | some h =>
      simp only [Node.create_client, hmw] at hok ⊢
      obtain ⟨hs, gr, h1, h2⟩ :=
        Node.finishClientCreate_attach hok hnodup hdef hfresh
      exact ⟨gr, by rw [hs]; exact h1, h2⟩
  · -- publishers
    intro msgT t pub hok
    have hnil : n.groups.filter
        (fun g => decide (g.holdsEntity n.nextEntityId)) = [] := by
      rw [List.filter_eq_nil_iff]
      intro g hg
      simp [hfresh g hg]
    cases hmw : mw.createPublisher t msgT with
    | none => simp [Node.create_publisher, hmw] at hok
    | some h =>
      cases huip : n.useIntraProcessComms with
      | false =>
        simp only [Node.create_publisher, hmw, huip, Bool.false_eq_true,
          if_false, Except.ok.injEq] at hok ⊢
        subst hok
        exact ⟨hnil, trivial⟩
      | true =>
        cases hmwi : mw.createPublisher (t ++ "__intra")
            MsgType.intraProcessMessage with
        | none => simp [Node.create_publisher, hmw, huip, hmwi] at hok
        | some ih =>
          simp only [Node.create_publisher, hmw, huip, if_true, hmwi,
            Except.ok.injEq] at hok ⊢
          subst hok
          exact ⟨hnil, trivial⟩

/-- C2 amended witness: concrete creates through
C2_amended_entity_in_exactly_one_group on a fresh intra-process node. -/
theorem C2_amended_witness :
    (∃ gr, (nodeIntra.create_subscription mwAllOk (MsgType.user "String")
        "chatter" none false).node.groupsHolding 1 = [gr]
      ∧ gr.groupId = (Option.getD none nodeIntra.defaultGroupId))
    ∧ (∃ gr, (nodeIntra.create_service mwAllOk "add" (some 0)).node.groupsHolding
        1 = [gr] ∧ gr.groupId = (Option.getD (some 0) nodeIntra.defaultGroupId)) :=
  ⟨(C2_amended_entity_in_exactly_one_group nodeIntra mwAllOk (by decide)).1
      (MsgType.user "String") "chatter" none false
      { entityId := 1, handle := 11, topic := "chatter", intraSetup := true,
        intraProcessSubscriptionId := some 0, intraProcessHandle := some 11 }
      rfl,
   (C2_amended_entity_in_exactly_one_group nodeIntra mwAllOk (by decide)).2.1
      "add" (some 0)
      { entityId := 1, handle := 12, serviceName := "add" } rfl⟩

/-- C6: a create of a subscription, service, or client with an explicitly
supplied callback group that is not registered with the node fails with an
error, and no group of the node is changed (the entity is added to no
group). -/
theorem C6_unregistered_group_fails :
    ∀ (n : Node) (mw : Middleware) (msgT : MsgType) (t sn cn : String)
      (gid : Nat) (il : Bool),
      n.group_in_node gid = false →
      ((n.create_subscription mw msgT t (some gid) il).res.toOption = none
        ∧ (n.create_subscription mw msgT t (some gid) il).node.groups = n.groups)
      ∧ ((n.create_service mw sn (some gid)).res.toOption = none
        ∧ (n.create_service mw sn (some gid)).node.groups = n.groups)
      ∧ ((n.create_client mw cn (some gid)).res.toOption = none
        ∧ (n.create_client mw cn (some gid)).node.groups = n.groups) := by
  intro n mw msgT t sn cn gid il hg
  refine ⟨?_, ?_, ?_⟩
  · cases hmw : mw.createSubscription t msgT il with
    | none => simp [Node.create_subscription, hmw, Except.toOption]
    | some h =>
      cases huip : n.useIntraProcessComms with
      | false =>
        simp only [Node.create_subscription, hmw, huip, Bool.false_eq_true,
          if_false]
        refine Node.finishSubscriptionCreate_err ?_
        exact hg
      | true =>
        simp only [Node.create_subscription, hmw, huip, if_true,
          Option.isNone_some, Bool.false_eq_true, if_false]
        refine Node.finishSubscriptionCreate_err ?_
        exact hg
  · cases hmw : mw.createService sn with
    | none => simp [Node.create_service, hmw, Except.toOption]
    | some h =>
      simp only [Node.create_service, hmw]
      refine Node.finishServiceCreate_err ?_
      exact hg
  · cases hmw : mw.createClient cn with
    | none => simp [Node.create_client, hmw, Except.toOption]
    | some h =>
      simp only [Node.create_client, hmw]
      refine Node.finishClientCreate_err ?_
      exact hg

/-- C6 witness: a concrete unregistered group (identity 5, while the node
only registers group 0) through C6_unregistered_group_fails. -/
theorem C6_unregistered_group_witness :
    ((nodeIntra.create_subscription mwAllOk (MsgType.user "String") "chatter"
        (some 5) false).res.toOption = none
      ∧ (nodeIntra.create_subscription mwAllOk (MsgType.user "String")
          "chatter" (some 5) false).node.groups = nodeIntra.groups)
    ∧ ((nodeIntra.create_service mwAllOk "add" (some 5)).res.toOption = none
      ∧ (nodeIntra.create_service mwAllOk "add" (some 5)).node.groups
          = nodeIntra.groups)
    ∧ ((nodeIntra.create_client mwAllOk "add" (some 5)).res.toOption = none
      ∧ (nodeIntra.create_client mwAllOk "add" (some 5)).node.groups
          = nodeIntra.groups) :=
  C6_unregistered_group_fails nodeIntra mwAllOk (MsgType.user "String")
    "chatter" "add" "add" 5 false (by decide)

/-- C9: on a node with intra-process comms enabled, a successful
create_publisher issues a middleware publisher create on the topic with the
"__intra" suffix using the intra-process notice message type, and a
successful create_subscription issues a middleware subscription create on
that same companion topic with the intra-process notice message type. -/
theorem C9_intra_companion_created :
    ∀ (n : Node) (mw : Middleware) (msgT : MsgType) (t : String)
      (g? : Option Nat) (il : Bool),
      n.useIntraProcessComms = true →
      (∀ pub : Publisher, (n.create_publisher mw msgT t).res = .ok pub →
        MwCall.createPub (t ++ "__intra") MsgType.intraProcessMessage
          ∈ (n.create_publisher mw msgT t).calls)
      ∧ (∀ sub : Subscription,
        (n.create_subscription mw msgT t g? il).res = .ok sub →
        MwCall.createSub (t ++ "__intra") MsgType.intraProcessMessage false
          ∈ (n.create_subscription mw msgT t g? il).calls) := by
  intro n mw msgT t g? il huip
  constructor
  · intro pub hok
    cases hmw : mw.createPublisher t msgT with
    | none => simp [Node.create_publisher, hmw] at hok
    | some h =>
      cases hmwi : mw.createPublisher (t ++ "__intra")
          MsgType.intraProcessMessage with
      | none => simp [Node.create_publisher, hmw, huip, hmwi] at hok
      | some ih => simp [Node.create_publisher, hmw, huip, hmwi]
  · intro sub hok
    cases hmw : mw.createSubscription t msgT il with
    | none => simp [Node.create_subscription, hmw] at hok
    | some h =>
      simp [Node.create_subscription, hmw, huip,
        Node.finishSubscriptionCreate_calls]

/-- C9 witness: concrete creates through C9_intra_companion_created. -/
theorem C9_intra_companion_witness :
    MwCall.createPub ("chatter" ++ "__intra") MsgType.intraProcessMessage
      ∈ (nodeIntra.create_publisher mwAllOk (MsgType.user "String")
        "chatter").calls
    ∧ MwCall.createSub ("chatter" ++ "__intra") MsgType.intraProcessMessage
        false
      ∈ (nodeIntra.create_subscription mwAllOk (MsgType.user "String")
        "chatter" none false).calls :=
  ⟨(C9_intra_companion_created nodeIntra mwAllOk (MsgType.user "String")
      "chatter" none false rfl).1
      { entityId := 1, handle := 10, topic := "chatter",
        intraProcessPublisherId := some 0, intraProcessHandle := some 10 } rfl,
   (C9_intra_companion_created nodeIntra mwAllOk (MsgType.user "String")
      "chatter" none false rfl).2
      { entityId := 1, handle := 11, topic := "chatter", intraSetup := true,
        intraProcessSubscriptionId := some 0, intraProcessHandle := some 11 }
      rfl⟩

/-! ## Claims about the shutdown station (utilities.cpp) -/

/-- C5: shutdown() behaves identically to receiving SIGINT: it produces the
same state as the installed signal handler invoked with SIGINT, and in
particular the signal status becomes nonzero (so ok() returns false), the
interrupt guard condition is triggered, the interrupted flag is set, and
the timed-sleep condition variable is notified. -/
theorem C5_shutdown_identical_to_sigint (s : UtilState) :
    utilities.shutdown s = utilities.signal_handler SIGINT s
    ∧ (utilities.shutdown s).signalStatus ≠ 0
    ∧ utilities.ok (utilities.shutdown s) = false
    ∧ (utilities.shutdown s).guardTriggered = true
    ∧ (utilities.shutdown s).isInterrupted = true
    ∧ (utilities.shutdown s).cvNotified = true :=
  ⟨rfl, by simp [utilities.shutdown, SIGINT], rfl, rfl, rfl, rfl⟩

/-- C4: sleep_for(D) returns true when the full duration elapses with the
interrupted flag never set; it returns false when a wait returns with the
interrupted flag set (woken by shutdown); and on a spurious wake before D
has elapsed with no shutdown, it recomputes the remaining time and resumes
the wait on it. -/
theorem C4_sleep_for_semantics :
    (∀ (events : List utilities.WakeEvent) (d : Int),
      (∀ e ∈ events, e.interrupted = false) →
        utilities.sleep_for events false d = true)
    ∧ (∀ (e : utilities.WakeEvent) (rest : List utilities.WakeEvent)
        (i : Bool) (d : Int), e.interrupted = true →
        utilities.sleep_for (e :: rest) i d = false)
    ∧ (∀ (e : utilities.WakeEvent) (rest : List utilities.WakeEvent)
        (i : Bool) (d : Int), e.interrupted = false → 0 < d - e.elapsed →
        utilities.sleep_for (e :: rest) i d
          = utilities.sleep_for rest false (d - e.elapsed)) := by
  refine ⟨?_, ?_, ?_⟩
  · intro events
    induction events with
    | nil => intro d _; rfl
    | cons e rest ih =>
      intro d h
      have he : e.interrupted = false := h e (List.mem_cons_self e rest)
      by_cases hc : 0 < d - e.elapsed
      · rw [utilities.sleep_for]
        simp only [he, hc, and_self, if_true]
        exact ih (d - e.elapsed) (fun x hx => h x (List.mem_cons_of_mem e hx))
      · rw [utilities.sleep_for]
        simp [he, hc]
  · intro e rest i d he
    rw [utilities.sleep_for]
    simp [he]
  · intro e rest i d he hc
    rw [utilities.sleep_for]
    simp [he, hc]

/-- C4 witness: concrete runs of sleep_for exercising each conjunct of
C4_sleep_for_semantics. -/
theorem C4_sleep_for_witness :
    utilities.sleep_for [⟨3, false⟩] false 5 = true
    ∧ utilities.sleep_for [⟨1, true⟩] false 5 = false
    ∧ utilities.sleep_for [⟨3, false⟩, ⟨9, true⟩] false 5
        = utilities.sleep_for [⟨9, true⟩] false (5 - 3) :=
  ⟨C4_sleep_for_semantics.1 [⟨3, false⟩] 5 (by decide),
   C4_sleep_for_semantics.2.1 ⟨1, true⟩ [] false 5 rfl,
   C4_sleep_for_semantics.2.2 ⟨3, false⟩ [⟨9, true⟩] false 5 rfl (by decide)⟩

/-- C3 counterexample: the claim says a subsequent init never clears the
signalled state and sleep_for returns false from then on; but init stores
false into g_is_interrupted, so after shutdown followed by init a sleep_for
that runs to its timeout returns true again.  (ok() does stay false.) -/
theorem C3_counterexample :
    utilities.ok (utilities.shutdown initialUtilState) = false
    ∧ utilities.ok (utilities.init (utilities.shutdown initialUtilState)) = false
    ∧ (utilities.init (utilities.shutdown initialUtilState)).isInterrupted = false
    ∧ utilities.sleep_for []
        (utilities.init (utilities.shutdown initialUtilState)).isInterrupted
        1000000 = true :=
  ⟨rfl, rfl, rfl, rfl⟩

/-- C3 amended: once shutdown has been signalled the signal status is never
cleared by any sequence of library operations, so ok() returns false from
then on; sleep_for returns false as long as the interrupted flag stays set;
but a subsequent init resets the interrupted flag (after which sleep_for
can return true again). -/
theorem C3_amended_shutdown_permanent :
    (∀ (s : UtilState) (ops : List UtilOp),
      utilities.ok (applyOps ops (utilities.shutdown s)) = false)
    ∧ (∀ (s : UtilState) (events : List utilities.WakeEvent) (d : Int),
      (∀ e ∈ events, e.interrupted = true) →
        utilities.sleep_for events (utilities.shutdown s).isInterrupted d = false)
    ∧ (∀ s : UtilState, (utilities.init (utilities.shutdown s)).isInterrupted = false) := by
  refine ⟨?_, ?_, fun _ => rfl⟩
  · intro s ops
    have h := applyOps_signalStatus_ne_zero ops (utilities.shutdown s)
      (by simp [utilities.shutdown, SIGINT])
    simp [utilities.ok, h]
  · intro s events d h
    cases events with
    | nil => rfl
    | cons e rest =>
      have he : e.interrupted = true := h e (List.mem_cons_self e rest)
      rw [utilities.sleep_for]
      simp [he]

/-- C3 amended witness: a concrete run through
C3_amended_shutdown_permanent. -/
theorem C3_amended_witness :
    utilities.ok (applyOps [UtilOp.initOp, UtilOp.sigintOp, UtilOp.initOp]
      (utilities.shutdown initialUtilState)) = false
    ∧ utilities.sleep_for [⟨2, true⟩]
        (utilities.shutdown initialUtilState).isInterrupted 1000 = false
    ∧ (utilities.init (utilities.shutdown initialUtilState)).isInterrupted = false :=
  ⟨C3_amended_shutdown_permanent.1 initialUtilState
      [UtilOp.initOp, UtilOp.sigintOp, UtilOp.initOp],
   C3_amended_shutdown_permanent.2.1 initialUtilState [⟨2, true⟩] 1000
      (by decide),
   C3_amended_shutdown_permanent.2.2 initialUtilState⟩

/-! ## Claims about the intra-process hooks -/

/-- C7: each of the three intra-process callbacks installed by
node_impl.hpp — the publish store hook, the take hook and the
publisher-identity check — fails loudly with an error when the weak
reference to the intra-process manager no longer upgrades (the manager was
destroyed); none of them silently returns. -/
theorem C7_use_after_destroy_fails_loudly :
    ∀ (declaredTypeName typeInfoName : String)
      (publisherId messageSequence subscriptionId senderGid : Nat)
      (msg : Option Nat),
      shared_publish_callback declaredTypeName none publisherId msg typeInfoName
        = .error "intra process publish called after destruction of intra process manager"
      ∧ subscription_take_callback none publisherId messageSequence subscriptionId
        = .error "intra process take called after destruction of intra process manager"
      ∧ subscription_matches_callback none senderGid
        = .error "intra process publisher check called after destruction of intra process manager" :=
  fun _ _ _ _ _ _ _ => ⟨rfl, rfl, rfl⟩

/-- C8: an intra-process publish whose dynamic message type differs from
the publisher declared message type fails loudly with an error naming both
types, and never returns a stored sequence (no message is stored). -/
theorem C8_type_mismatch_fails_loudly :
    ∀ (declaredTypeName typeInfoName : String) (ipm : IntraProcessManager)
      (publisherId m : Nat),
      typeInfoName ≠ declaredTypeName →
      shared_publish_callback declaredTypeName (some ipm) publisherId (some m)
        typeInfoName
        = .error ("published type \x27" ++ typeInfoName ++
            "\x27 is incompatible from the publisher type \x27" ++
            declaredTypeName ++ "\x27")
      ∧ ∀ out, shared_publish_callback declaredTypeName (some ipm) publisherId
          (some m) typeInfoName ≠ .ok out := by
  intro declaredTypeName typeInfoName ipm publisherId m hne
  constructor
  · simp [shared_publish_callback, hne]
  · intro out h
    simp [shared_publish_callback, hne] at h

/-- C8 witness: a concrete mismatched publish through
C8_type_mismatch_fails_loudly. -/
theorem C8_type_mismatch_witness :
    shared_publish_callback "PublisherType" (some ⟨0, [], []⟩) 1 (some 7)
      "OtherType"
      = .error ("published type \x27" ++ "OtherType" ++
          "\x27 is incompatible from the publisher type \x27" ++
          "PublisherType" ++ "\x27") :=
  (C8_type_mismatch_fails_loudly "PublisherType" "OtherType" ⟨0, [], []⟩ 1 7
    (by decide)).1

/-- C10: the intra-process publish store hook rejects a null message
pointer with an error, whatever the passed dynamic type is — so the type
check and the store are never reached and a null message is never stored. -/
theorem C10_null_message_rejected :
    ∀ (declaredTypeName typeInfoName : String) (ipm : IntraProcessManager)
      (publisherId : Nat),
      shared_publish_callback declaredTypeName (some ipm) publisherId none
        typeInfoName
        = .error "cannot publisher msg which is a null pointer" :=
  fun _ _ _ _ => rfl

end Rclcpp
